import Mathlib

/-!
# Verification of the aws-aiops swarm/orchestrator core

Shallow embedding of the parts of the repository that the verified claims
concern:

* `src/agents/base.py` — `AgentAction`, `AgentState`, `BaseAgent.record_action`,
  `BaseAgent.invoke`, `BaseAgent.reset_state`;
* `src/workflows/swarm_coordinator.py` — `AIOpsSwarm.run`,
  `AIOpsSwarm._get_agents_used`, `AIOpsSwarm._generate_summary`, `SwarmResult`;
* `src/agents/orchestrator.py` — stage 4 (deduplicate & create tickets) of
  `OrchestratorAgent.analyze_and_report`;
* `src/workflows/cron_workflow.py` — `DailyAnalysisWorkflow.execute` and its
  helper stages;
* `src/agents/servicenow_agent.py` — `ServiceNowAgent.search_incidents`.

Modelling conventions:
* Python exceptions become `Except String α`; the message of a raised
  exception is its `str(e)` rendering.
* External collaborators (the Strands reasoning call, the DataDog client, the
  ServiceNow client, the pattern analyzer) are passed in as explicit
  function/value parameters, since the repository treats them as black boxes.
* Wall-clock data (ISO timestamps, measured durations) is not authoritative in
  the source; timestamp string fields are dropped and measured durations are
  taken as parameters.
* Python `s[:n]` character slicing is `pySlice`.
-/

namespace AwsAiops

/-- Python `s[:n]`: the first `n` characters of `s`. -/
def pySlice (s : String) (n : Nat) : String := String.mk (s.data.take n)

/-! ## `src/agents/base.py` -/

/-- `AgentAction` (base.py): record of a single agent action.  The wall-clock
`timestamp` field is not modelled. -/
structure AgentAction where
  action_type : String
  description : String
  input_summary : String := ""
  output_summary : String := ""
  success : Bool := true
  error_message : String := ""
  duration_ms : Nat := 0
deriving DecidableEq, Repr

/-- `AgentState` (base.py): state tracking for an agent instance.  The
wall-clock `created_at`/`last_activity` fields are not modelled. -/
structure AgentState where
  agent_id : String
  agent_name : String
  action_history : List AgentAction := []
  total_invocations : Nat := 0
  successful_invocations : Nat := 0
  failed_invocations : Nat := 0
deriving DecidableEq, Repr

/-- A fresh `AgentState`, as built by `BaseAgent.__init__` / `reset_state`. -/
def AgentState.fresh (agent_id agent_name : String) : AgentState :=
  { agent_id := agent_id, agent_name := agent_name }

/-- `BaseAgent.record_action` (base.py): append one `AgentAction` to the
ledger, truncating the summaries to 500 characters
(`input_summary[:500] if input_summary else ""`), and update the three
invocation counters. -/
def AgentState.record_action (st : AgentState)
    (action_type description input_summary output_summary : String)
    (success : Bool) (error_message : String) (duration_ms : Nat) : AgentState :=
  let action : AgentAction :=
    { action_type := action_type
      description := description
      input_summary := if input_summary ≠ "" then pySlice input_summary 500 else ""
      output_summary := if output_summary ≠ "" then pySlice output_summary 500 else ""
      success := success
      error_message := error_message
      duration_ms := duration_ms }
  { st with
    action_history := st.action_history ++ [action]
    successful_invocations :=
      if success then st.successful_invocations + 1 else st.successful_invocations
    failed_invocations :=
      if success then st.failed_invocations else st.failed_invocations + 1
    total_invocations := st.total_invocations + 1 }

/-- `BaseAgent.invoke` (base.py).  The call into the underlying Strands agent
is the black-box `outcome : Except String String` (`str(result)` on success,
`str(e)` of the raised exception on failure); `duration_ms` is the measured
duration.  Returns the updated state together with the call's outcome: `.ok`
is the returned response, `.error` is the re-raised exception. -/
def AgentState.invoke (st : AgentState) (message : String)
    (outcome : Except String String) (duration_ms : Nat) :
    AgentState × Except String String :=
  match outcome with
  | Except.ok result =>
      (st.record_action "invoke" "Processed user request" message result true "" duration_ms,
       Except.ok result)
  | Except.error e =>
      (st.record_action "invoke" "Failed to process request" message "" false e duration_ms,
       Except.error e)

/-- `BaseAgent` (base.py): configuration bound at construction (name,
description, system prompt/directive, tool names) plus the mutable
`AgentState`. -/
structure BaseAgent where
  agent_id : String
  agent_name : String
  description : String
  system_prompt : String
  tools : List String
  state : AgentState
deriving DecidableEq, Repr

/-- `BaseAgent.__init__` (base.py): a freshly constructed agent. -/
def mkBaseAgent (agent_id agent_name description system_prompt : String)
    (tools : List String) : BaseAgent :=
  { agent_id := agent_id, agent_name := agent_name, description := description,
    system_prompt := system_prompt, tools := tools,
    state := AgentState.fresh agent_id agent_name }

/-- `BaseAgent.reset_state` (base.py): replace the state with a fresh
`AgentState`; configuration (tools, system prompt) is untouched. -/
def BaseAgent.reset_state (a : BaseAgent) : BaseAgent :=
  { a with state := AgentState.fresh a.agent_id a.agent_name }

/-- One call against a `BaseAgent`'s ledger: either a direct
`record_action` or an `invoke` (whose underlying call had the given
outcome and measured duration). -/
inductive AgentCall where
  | record (action_type description input_summary output_summary : String)
      (success : Bool) (error_message : String) (duration_ms : Nat)
  | invokeCall (message : String) (outcome : Except String String) (duration_ms : Nat)
deriving Repr

/-- Apply one `AgentCall` to an agent. -/
def BaseAgent.applyCall (a : BaseAgent) : AgentCall → BaseAgent
  | AgentCall.record aty d isum osum succ emsg dms =>
      { a with state := a.state.record_action aty d isum osum succ emsg dms }
  | AgentCall.invokeCall msg outcome dms =>
      { a with state := (a.state.invoke msg outcome dms).1 }

/-- Apply a sequence of calls to an agent, in order. -/
def BaseAgent.applyCalls (a : BaseAgent) (calls : List AgentCall) : BaseAgent :=
  calls.foldl BaseAgent.applyCall a

/-! ## `src/workflows/swarm_coordinator.py` -/

/-- The three capabilities held by `AIOpsSwarm`: their `AgentState`s, in the
fixed order the coordinator constructs them. -/
structure SwarmAgents where
  datadog : AgentState
  coding : AgentState
  servicenow : AgentState
deriving DecidableEq, Repr

/-- The swarm's agent states right after `AIOpsSwarm.__init__`. -/
def initSwarmAgents : SwarmAgents :=
  { datadog := AgentState.fresh "datadog" "DataDog Agent"
    coding := AgentState.fresh "coding" "Coding Agent"
    servicenow := AgentState.fresh "servicenow" "ServiceNow Agent" }

/-- One of the three swarm members. -/
inductive SwarmMember where
  | datadog
  | coding
  | servicenow
deriving DecidableEq, Repr

/-- The display name `_get_agents_used` / `_generate_summary` use for each
member. -/
def memberName : SwarmMember → String
  | SwarmMember.datadog => "DataDog Agent"
  | SwarmMember.coding => "Coding Agent"
  | SwarmMember.servicenow => "ServiceNow Agent"

/-- Select a member's `AgentState`. -/
def SwarmAgents.member (s : SwarmAgents) : SwarmMember → AgentState
  | SwarmMember.datadog => s.datadog
  | SwarmMember.coding => s.coding
  | SwarmMember.servicenow => s.servicenow

/-- One capability performing an action during a swarm run: the action is
recorded on that capability's ledger through `BaseAgent.record_action`
(the mechanism `_get_agents_used` and `_generate_summary` observe). The
`Bool` is the recorded action's success flag. -/
def recordEvent (s : SwarmAgents) (ev : SwarmMember × Bool) : SwarmAgents :=
  match ev.1 with
  | SwarmMember.datadog =>
      { s with datadog := s.datadog.record_action "invoke" "Processed user request" "" "" ev.2 "" 0 }
  | SwarmMember.coding =>
      { s with coding := s.coding.record_action "invoke" "Processed user request" "" "" ev.2 "" 0 }
  | SwarmMember.servicenow =>
      { s with servicenow := s.servicenow.record_action "invoke" "Processed user request" "" "" ev.2 "" 0 }

/-- The agent states after a swarm run in which the given sequence of
capability actions happened, in order. -/
def runTrace (events : List (SwarmMember × Bool)) : SwarmAgents :=
  events.foldl recordEvent initSwarmAgents

/-- The order in which capabilities first acted during a run (first-seen
dedup over the event sequence) — the order the spec asserts for
`agents_used`. -/
def firstActionOrder (events : List (SwarmMember × Bool)) : List String :=
  events.foldl
    (fun acc ev => if memberName ev.1 ∈ acc then acc else acc ++ [memberName ev.1]) []

/-- `AIOpsSwarm._get_agents_used` (swarm_coordinator.py): the names of the
agents with at least one recorded invocation, appended in the fixed order
DataDog, Coding, ServiceNow. -/
def getAgentsUsed (s : SwarmAgents) : List String :=
  (if s.datadog.total_invocations > 0 then ["DataDog Agent"] else []) ++
  (if s.coding.total_invocations > 0 then ["Coding Agent"] else []) ++
  (if s.servicenow.total_invocations > 0 then ["ServiceNow Agent"] else [])

/-- `AIOpsSwarm._generate_summary` (swarm_coordinator.py): header plus one
counts-only section per agent that acted, joined with newlines. -/
def generateSummary (s : SwarmAgents) : String :=
  String.intercalate "\n"
    (["## AIOps Swarm Execution Summary", ""] ++
      (if s.datadog.total_invocations > 0 then
        ["### DataDog Agent",
         "- Actions: " ++ toString s.datadog.total_invocations,
         "- Successful: " ++ toString s.datadog.successful_invocations, ""]
       else []) ++
      (if s.coding.total_invocations > 0 then
        ["### Coding Agent",
         "- Actions: " ++ toString s.coding.total_invocations,
         "- Successful: " ++ toString s.coding.successful_invocations, ""]
       else []) ++
      (if s.servicenow.total_invocations > 0 then
        ["### ServiceNow Agent",
         "- Actions: " ++ toString s.servicenow.total_invocations,
         "- Successful: " ++ toString s.servicenow.successful_invocations, ""]
       else []))

/-- `SwarmResult` (swarm_coordinator.py): the outcome record of one swarm
run.  `error` defaults to `""` as in `SwarmResult.__init__`. -/
structure SwarmResult where
  success : Bool
  task : String
  output : String
  agents_used : List String
  summary : String
  error : String := ""
deriving DecidableEq, Repr

/-- A value in the dictionary produced by `SwarmResult.to_dict`. -/
inductive DictVal where
  | str (s : String)
  | bool (b : Bool)
  | strList (l : List String)
deriving DecidableEq, Repr

/-- `SwarmResult.to_dict` (swarm_coordinator.py): the outward dictionary
projection, as an ordered key/value list. -/
def SwarmResult.to_dict (r : SwarmResult) : List (String × DictVal) :=
  [("success", DictVal.bool r.success),
   ("task", DictVal.str r.task),
   ("output", DictVal.str r.output),
   ("agents_used", DictVal.strList r.agents_used),
   ("summary", DictVal.str r.summary),
   ("error", DictVal.str r.error)]

/-- `AIOpsSwarm.run` (swarm_coordinator.py).  The inner `self._swarm(task,
start=...)` execution is the black-box `swarmOutcome : Except String String`
(`str(result)` on success, `str(e)` of the raised exception on failure);
`agents` is the swarm's agent states when the result is built. -/
def AIOpsSwarm.run (task : String) (swarmOutcome : Except String String)
    (agents : SwarmAgents) : SwarmResult :=
  match swarmOutcome with
  | Except.ok result =>
      { success := true, task := task, output := result,
        agents_used := getAgentsUsed agents, summary := generateSummary agents }
  | Except.error e =>
      { success := false, task := task, output := "", error := e,
        agents_used := getAgentsUsed agents, summary := "Task failed: " ++ e }

/-! ## `src/agents/orchestrator.py` — stage 4 of `analyze_and_report`

Stage 4 iterates over the analysis results (one `(service, severity)` per
analyzed service, services unique because `analysis_results` is a dict).
The ServiceNow search and ticket creation are the external collaborators:
`existingTickets service` is the list of ticket numbers returned by the
decision-mode `search_incidents` for that service, and `createdNumber
service` the number of the ticket `create_ticket_from_analysis` would
return. -/

/-- The `ticket_number` field of a `tickets_created` entry: a single number
for a created ticket, a list of numbers for a recorded duplicate match. -/
inductive TicketNumbers where
  | one (n : String)
  | many (ns : List String)
deriving DecidableEq, Repr

/-- One entry of `workflow_result["tickets_created"]`. -/
structure TicketEntry where
  service : String
  ticket_number : TicketNumbers
  priority : String
  note : Option String := none
deriving DecidableEq, Repr

/-- One entry of the orchestrator's `self._agent_reports`. -/
structure AgentReport where
  agent : String
  action : String
  result : String
deriving DecidableEq, Repr

/-- Output of stage 4: the entries appended to
`workflow_result["tickets_created"]`, the agent reports appended, and — as
observability instrumentation — the services for which
`create_ticket_from_analysis` was actually called. -/
structure Stage4Result where
  tickets_created : List TicketEntry
  reports : List AgentReport
  create_calls : List String
deriving DecidableEq, Repr

/-- One iteration of the stage-4 loop of
`OrchestratorAgent.analyze_and_report` (orchestrator.py). -/
def stage4Step (existingTickets : String → List String)
    (createdNumber : String → String) (acc : Stage4Result)
    (item : String × String) : Stage4Result :=
  let service := item.1
  let severity := item.2
  if severity ∉ ["critical", "high", "medium"] then acc
  else
    let found := existingTickets service
    if found ≠ [] then
      { acc with
        tickets_created := acc.tickets_created ++
          [{ service := service, ticket_number := TicketNumbers.many found,
             priority := severity,
             note := some "Duplicate ticket exists — not creating a new one" }]
        reports := acc.reports ++
          [{ agent := "ServiceNow Agent",
             action := "Duplicate check for " ++ service,
             result := toString found.length ++ " active ticket(s) found" }] }
    else
      { acc with
        tickets_created := acc.tickets_created ++
          [{ service := service, ticket_number := TicketNumbers.one (createdNumber service),
             priority := severity }]
        reports := acc.reports ++
          [{ agent := "ServiceNow Agent",
             action := "Created ticket for " ++ service,
             result := "Ticket: " ++ createdNumber service }]
        create_calls := acc.create_calls ++ [service] }

/-- Stage 4 of `OrchestratorAgent.analyze_and_report` (orchestrator.py),
over the analyzed `(service, severity)` items in order. -/
def stage4 (existingTickets : String → List String)
    (createdNumber : String → String) (items : List (String × String)) : Stage4Result :=
  items.foldl (stage4Step existingTickets createdNumber) ⟨[], [], []⟩

/-- The `tickets_created` entries one stage-4 item contributes. -/
def stage4Entries (existingTickets : String → List String)
    (createdNumber : String → String) (item : String × String) : List TicketEntry :=
  if item.2 ∉ ["critical", "high", "medium"] then []
  else if existingTickets item.1 ≠ [] then
    [{ service := item.1, ticket_number := TicketNumbers.many (existingTickets item.1),
       priority := item.2,
       note := some "Duplicate ticket exists — not creating a new one" }]
  else
    [{ service := item.1, ticket_number := TicketNumbers.one (createdNumber item.1),
       priority := item.2 }]

/-- The `create_ticket_from_analysis` calls one stage-4 item contributes. -/
def stage4Calls (existingTickets : String → List String)
    (item : String × String) : List String :=
  if item.2 ∉ ["critical", "high", "medium"] then []
  else if existingTickets item.1 ≠ [] then [] else [item.1]

/-! ## `src/workflows/cron_workflow.py` -/

/-- One DataDog log record, reduced to the `attributes.service` field the
workflow reads; `""` models a record whose service attribute is missing or
falsy. -/
structure LogRecord where
  service : String
deriving DecidableEq, Repr

/-- `DataDogAgent.get_services` (datadog_agent.py), via the client's
`extract_services`: the sorted set of non-empty service names. -/
def getServices (logs : List LogRecord) : List String :=
  ((logs.filterMap fun l => if l.service ≠ "" then some l.service else none).dedup).insertionSort
    (fun a b => a ≤ b)

/-- Configuration of `DailyAnalysisWorkflow.__init__` (cron_workflow.py). -/
structure CronConfig where
  time_from : String
  time_to : String
  create_tickets : Bool
  min_severity : String
  dry_run : Bool
deriving DecidableEq, Repr

/-- `severity_order` dict of `_create_tickets_for_issues`
(cron_workflow.py); `none` models a key absent from the dict. -/
def severityOrder (sev : String) : Option Nat :=
  if sev = "critical" then some 0
  else if sev = "high" then some 1
  else if sev = "medium" then some 2
  else if sev = "low" then some 3
  else none

/-- One entry of the `created` list of `_create_tickets_for_issues`. -/
structure CreatedTicket where
  service : String
  severity : String
  ticket_number : String
  sys_id : Option String := none
  dry_run : Bool := false
deriving DecidableEq, Repr

/-- One entry of the `skipped` list of `_create_tickets_for_issues`
(`severity` is only present in the below-minimum-severity case). -/
structure SkippedTicket where
  service : String
  severity : Option String := none
  reason : String
deriving DecidableEq, Repr

/-- Return of `_create_tickets_for_issues` (cron_workflow.py), plus — as
observability instrumentation — how often the ServiceNow client's
`create_ticket_from_analysis` was actually called. -/
structure TicketsResult where
  created : List CreatedTicket
  skipped : List SkippedTicket
  create_invocations : Nat
deriving DecidableEq, Repr

/-- One iteration of `_create_tickets_for_issues` (cron_workflow.py).
`createTicket service` is the black-box ServiceNow call: `.ok (number,
sys_id)` when the returned dict has no `"error"` key, `.error msg`
otherwise. -/
def createTicketsStep (cfg : CronConfig)
    (createTicket : String → Except String (String × String))
    (acc : TicketsResult) (item : String × String) : TicketsResult :=
  let service := item.1
  let severity := item.2
  let min_severity_level := (severityOrder cfg.min_severity).getD 2
  let severity_level := (severityOrder severity).getD 3
  if ¬ cfg.create_tickets then
    { acc with skipped := acc.skipped ++
        [{ service := service, reason := "Ticket creation disabled" }] }
  else if severity_level > min_severity_level then
    { acc with skipped := acc.skipped ++
        [{ service := service, severity := some severity,
           reason := "Below minimum severity (" ++ cfg.min_severity ++ ")" }] }
  else if cfg.dry_run then
    { acc with created := acc.created ++
        [{ service := service, severity := severity,
           ticket_number := "DRY-RUN-XXXX", dry_run := true }] }
  else
    match createTicket service with
    | Except.ok numId =>
        { acc with
          created := acc.created ++
            [{ service := service, severity := severity,
               ticket_number := numId.1, sys_id := some numId.2 }]
          create_invocations := acc.create_invocations + 1 }
    | Except.error err =>
        { acc with
          skipped := acc.skipped ++
            [{ service := service, reason := "Creation failed: " ++ err }]
          create_invocations := acc.create_invocations + 1 }

/-- `DailyAnalysisWorkflow._create_tickets_for_issues` (cron_workflow.py)
over the analyzed `(service, severity)` items in order. -/
def createTicketsForIssues (cfg : CronConfig)
    (createTicket : String → Except String (String × String))
    (items : List (String × String)) : TicketsResult :=
  items.foldl (createTicketsStep cfg createTicket) ⟨[], [], 0⟩

/-- `severity_counts` of `_build_report` (cron_workflow.py): the four
standard keys in order, then any other severity value that occurred, in
first-occurrence order. -/
def severityBreakdown (sevs : List String) : List (String × Nat) :=
  (["critical", "high", "medium", "low"].map fun s => (s, sevs.count s)) ++
    ((sevs.filter fun s => s ∉ ["critical", "high", "medium", "low"]).dedup.map
      fun s => (s, sevs.count s))

/-- The report dict built by `_build_report` / `_build_empty_report`
(cron_workflow.py).  Wall-clock fields (`timestamp`, `execution_time`) are
not modelled; `dry_run` is `none` for the empty report, whose dict has no
`dry_run` key. -/
structure CronReport where
  success : Bool
  logs_total_fetched : Nat
  services_found : List String
  services_analyzed : Nat
  severity_breakdown : List (String × Nat)
  tickets_created : Nat
  tickets_skipped : Nat
  tickets_details : List CreatedTicket
  dry_run : Option Bool
  summary : String
deriving DecidableEq, Repr

/-- `DailyAnalysisWorkflow._build_empty_report` (cron_workflow.py). -/
def buildEmptyReport (reason : String) : CronReport :=
  { success := true, logs_total_fetched := 0, services_found := [],
    services_analyzed := 0, severity_breakdown := [], tickets_created := 0,
    tickets_skipped := 0, tickets_details := [], dry_run := none,
    summary := reason }

/-- `DailyAnalysisWorkflow._generate_text_summary` (cron_workflow.py).
`execution_time_str` stands for the wall-clock `strftime` rendering of the
run's start time. -/
def generateTextSummary (cfg : CronConfig) (execution_time_str : String)
    (logCount : Nat) (services : List String) (tickets : TicketsResult)
    (sevs : List String) : String :=
  String.intercalate "\n"
    (["# Daily AIOps Analysis Report", "",
      "**Execution Time:** " ++ execution_time_str,
      "**Time Range:** " ++ cfg.time_from ++ " to " ++ cfg.time_to, "",
      "## Overview",
      "- Logs analyzed: " ++ toString logCount,
      "- Services affected: " ++ toString services.length,
      "- Tickets created: " ++ toString tickets.created.length, "",
      "## Issues by Severity"] ++
      (["critical", "high", "medium", "low"].map fun severity =>
        let emoji := if severity = "critical" then "🔴"
          else if severity = "high" then "🟠"
          else if severity = "medium" then "🟡" else "🟢"
        "- " ++ emoji ++ " " ++ severity.capitalize ++ ": " ++
          toString (sevs.count severity)) ++
      [""] ++
      (if tickets.created ≠ [] then
        ["## Tickets Created"] ++
          tickets.created.map (fun t =>
            "- **" ++ t.ticket_number ++ "**: [" ++ t.severity.toUpper ++ "] " ++ t.service)
       else []) ++
      (if cfg.dry_run then
        ["", "*Note: This was a dry run. No actual tickets were created.*"]
       else []))

/-- `DailyAnalysisWorkflow._build_report` (cron_workflow.py). -/
def buildReport (cfg : CronConfig) (execution_time_str : String)
    (logs : List LogRecord) (services : List String)
    (sevItems : List (String × String)) (tickets : TicketsResult) : CronReport :=
  let sevs := sevItems.map Prod.snd
  { success := true, logs_total_fetched := logs.length, services_found := services,
    services_analyzed := sevItems.length, severity_breakdown := severityBreakdown sevs,
    tickets_created := tickets.created.length, tickets_skipped := tickets.skipped.length,
    tickets_details := tickets.created, dry_run := some cfg.dry_run,
    summary := generateTextSummary cfg execution_time_str logs.length services tickets sevs }

/-- Result of one `DailyAnalysisWorkflow.execute` run: the report plus — as
observability instrumentation — how often the analysis capability
(`CodingAgent.full_analysis`) and the ticketing client were invoked. -/
structure CronExec where
  report : CronReport
  coding_invocations : Nat
  snow_create_invocations : Nat
deriving DecidableEq, Repr

/-- `DailyAnalysisWorkflow.execute` (cron_workflow.py).  The DataDog fetch
result is the parameter `logs`; `severityOf service` is the black-box
severity that `CodingAgent.full_analysis` assigns to the service's logs
(`analysis["severity"]["severity"]`); `createTicket` is the ServiceNow
client.  The surrounding `try/except` wrapper is not exercised here because
every modelled stage is total. -/
def DailyAnalysisWorkflow.execute (cfg : CronConfig) (execution_time_str : String)
    (logs : List LogRecord) (severityOf : String → String)
    (createTicket : String → Except String (String × String)) : CronExec :=
  if logs = [] then
    { report := buildEmptyReport "No logs found in the specified time range",
      coding_invocations := 0, snow_create_invocations := 0 }
  else
    let services := getServices logs
    let sevItems := services.map fun s => (s, severityOf s)
    let tickets := createTicketsForIssues cfg createTicket sevItems
    { report := buildReport cfg execution_time_str logs services sevItems tickets,
      coding_invocations := services.length,
      snow_create_invocations := tickets.create_invocations }

/-! ## `src/agents/servicenow_agent.py` — `search_incidents` -/

/-- A raw incident dict from the ServiceNow client's `search_incidents`.
`assigned_to_display` is `r.get("assigned_to", {}).get("display_value")`:
`none` when the `assigned_to` dict or its `display_value` is absent. -/
structure RawIncident where
  sys_id : String
  number : String
  state : String
  priority : String
  short_description : String
  assigned_to_display : Option String
  sys_created_on : String
  sys_updated_on : String
deriving DecidableEq, Repr

/-- One standardized incident record returned by
`ServiceNowAgent.search_incidents`. -/
structure Incident where
  sys_id : String
  number : String
  state : String
  priority : String
  short_description : String
  assigned_to : String
  created_on : String
  updated_on : String
deriving DecidableEq, Repr

/-- The per-result standardization loop of `search_incidents`
(servicenow_agent.py). -/
def standardizeIncident (r : RawIncident) : Incident :=
  { sys_id := r.sys_id, number := r.number, state := r.state,
    priority := r.priority, short_description := r.short_description,
    assigned_to := r.assigned_to_display.getD "Unassigned",
    created_on := r.sys_created_on, updated_on := r.sys_updated_on }

/-- Python `f"{o}"` for an optional string argument: `None` renders as
`"None"`. -/
def pyOptStr : Option String → String
  | none => "None"
  | some s => s

/-- The `sysparm_query` filter string built by `search_incidents`
(servicenow_agent.py).  Python truthiness: an empty `query`, `service_name`
or `state` string adds no filter. -/
def buildSearchQuery (query : String) (service_name state : Option String)
    (mode : String) : String :=
  let filters :=
    (if query ≠ "" then ["short_descriptionLIKE" ++ query] else []) ++
    (match service_name with
     | some s => if s ≠ "" then ["category=" ++ s] else []
     | none => []) ++
    (match state with
     | some st =>
         if st ≠ "" then ["state=" ++ st]
         else if mode = "knowledge" then ["stateIN6,7"]
         else if mode = "decision" then ["stateIN1,2,3,4,5"]
         else []
     | none =>
         if mode = "knowledge" then ["stateIN6,7"]
         else if mode = "decision" then ["stateIN1,2,3,4,5"]
         else [])
  String.intercalate "^" filters

/-- The `input_summary` string recorded by `search_incidents`. -/
def searchInputSummary (query : String) (service_name state : Option String)
    (limit : Nat) : String :=
  "Query: " ++ pySlice query 100 ++ ", Service: " ++ pyOptStr service_name ++
    ", State: " ++ pyOptStr state ++ ", Limit: " ++ toString limit

/-- `ServiceNowAgent.search_incidents` (servicenow_agent.py).  The
ServiceNow client call is the black box
`client sysparm_query limit : Except String (List RawIncident)` (`.error`
is the `str(e)` of an exception raised anywhere inside the `try` block).
On failure it records one failed action and returns `[]`; on success it
records one successful action and returns the standardized records. -/
def ServiceNowAgent.search_incidents (st : AgentState) (query : String)
    (service_name state : Option String) (limit : Nat) (mode : String)
    (client : String → Nat → Except String (List RawIncident)) :
    AgentState × List Incident :=
  let sysparm_query := buildSearchQuery query service_name state mode
  let input_summary := searchInputSummary query service_name state limit
  match client sysparm_query limit with
  | Except.ok results_raw =>
      let results := results_raw.map standardizeIncident
      (st.record_action "search_tickets"
        ("Performed ServiceNow search (" ++ mode ++ ")") input_summary
        ("Found " ++ toString results.length ++ " matching tickets") true "" 0,
       results)
  | Except.error e =>
      (st.record_action "search_tickets" "ServiceNow search failed"
        input_summary e false e 0,
       [])

/-! ## Derived definitions used by the theorems -/

/-- The agent obtained from a freshly constructed `BaseAgent` by a sequence
of `record_action`/`invoke` calls. -/
def agentAfter (agent_id agent_name description system_prompt : String)
    (tools : List String) (calls : List AgentCall) : BaseAgent :=
  (mkBaseAgent agent_id agent_name description system_prompt tools).applyCalls calls

/-- The ledger/counter partition invariant of a capability's state. -/
def ledgerPartition (st : AgentState) : Prop :=
  st.action_history.length = st.successful_invocations + st.failed_invocations ∧
    st.successful_invocations + st.failed_invocations = st.total_invocations

/-- Every action in the ledger has summaries of at most 500 characters. -/
def summariesBounded (st : AgentState) : Prop :=
  ∀ act ∈ st.action_history,
    act.input_summary.length ≤ 500 ∧ act.output_summary.length ≤ 500

/-- A concrete two-event run trace: the Coding agent acts first, then the
DataDog agent. -/
def ceEvents : List (SwarmMember × Bool) :=
  [(SwarmMember.coding, true), (SwarmMember.datadog, true)]

/-- Concrete swarm agent states after a run in which only the DataDog agent
acted, once, successfully. -/
def ceAgents : SwarmAgents := runTrace [(SwarmMember.datadog, true)]

/-- A concrete decision-mode search oracle: one active ticket matches
service `svc-a`, none match anything else. -/
def ceExisting : String → List String :=
  fun s => if s = "svc-a" then ["INC0001"] else []

/-- Stage 4 run on one analyzed high-severity service whose decision-mode
search finds an active ticket. -/
def ceStage4 : Stage4Result :=
  stage4 ceExisting (fun _ => "INC0999") [("svc-a", "high")]

/-! ## Helper lemmas -/

/-- `pySlice` never exceeds the requested length. -/
theorem length_pySlice_le (s : String) (n : Nat) : (pySlice s n).length ≤ n := by
  show (s.data.take n).length ≤ n
  simp [List.length_take]

/-- The `if input_summary else ""` truncation guard is redundant: slicing
the empty string already yields the empty string. -/
theorem truncGuard (s : String) : (if s ≠ "" then pySlice s 500 else "") = pySlice s 500 := by
  by_cases h : s = ""
  · subst h; rfl
  · simp [h]

/-- `record_action` appends exactly the truncated action. -/
theorem record_action_history (st : AgentState)
    (aty d isum osum : String) (succ : Bool) (emsg : String) (dms : Nat) :
    (st.record_action aty d isum osum succ emsg dms).action_history =
      st.action_history ++
        [{ action_type := aty, description := d,
           input_summary := pySlice isum 500, output_summary := pySlice osum 500,
           success := succ, error_message := emsg, duration_ms := dms }] := by
  simp [AgentState.record_action, truncGuard]
  exact ⟨fun h => by subst h; rfl, fun h => by subst h; rfl⟩

/-- `record_action` preserves the ledger/counter partition invariant. -/
theorem ledgerPartition_record (st : AgentState)
    (aty d isum osum : String) (succ : Bool) (emsg : String) (dms : Nat)
    (h : ledgerPartition st) :
    ledgerPartition (st.record_action aty d isum osum succ emsg dms) := by
  obtain ⟨h1, h2⟩ := h
  unfold ledgerPartition AgentState.record_action
  cases succ <;> simp <;> omega

/-- Every `AgentCall` preserves the ledger/counter partition invariant. -/
theorem ledgerPartition_applyCall (a : BaseAgent) (c : AgentCall)
    (h : ledgerPartition a.state) : ledgerPartition (a.applyCall c).state := by
  cases c with
  | record aty d isum osum succ emsg dms =>
      exact ledgerPartition_record _ _ _ _ _ _ _ _ h
  | invokeCall msg outcome dms =>
      cases outcome with
      | ok r => exact ledgerPartition_record _ _ _ _ _ _ _ _ h
      | error e => exact ledgerPartition_record _ _ _ _ _ _ _ _ h

/-- Call sequences preserve the ledger/counter partition invariant. -/
theorem ledgerPartition_applyCalls (calls : List AgentCall) (a : BaseAgent)
    (h : ledgerPartition a.state) : ledgerPartition (a.applyCalls calls).state := by
  induction calls generalizing a with
  | nil => exact h
  | cons c rest ih =>
      exact ih (a.applyCall c) (ledgerPartition_applyCall a c h)

/-- `record_action` preserves the 500-character summary bound. -/
theorem summariesBounded_record (st : AgentState)
    (aty d isum osum : String) (succ : Bool) (emsg : String) (dms : Nat)
    (h : summariesBounded st) :
    summariesBounded (st.record_action aty d isum osum succ emsg dms) := by
  intro act hact
  rw [record_action_history] at hact
  rcases List.mem_append.mp hact with hmem | hmem
  · exact h act hmem
  · rcases List.mem_singleton.mp hmem with rfl
    exact ⟨length_pySlice_le _ _, length_pySlice_le _ _⟩

/-- Every `AgentCall` preserves the 500-character summary bound. -/
theorem summariesBounded_applyCall (a : BaseAgent) (c : AgentCall)
    (h : summariesBounded a.state) : summariesBounded (a.applyCall c).state := by
  cases c with
  | record aty d isum osum succ emsg dms =>
      exact summariesBounded_record _ _ _ _ _ _ _ _ h
  | invokeCall msg outcome dms =>
      cases outcome with
      | ok r => exact summariesBounded_record _ _ _ _ _ _ _ _ h
      | error e => exact summariesBounded_record _ _ _ _ _ _ _ _ h

/-- Call sequences preserve the 500-character summary bound. -/
theorem summariesBounded_applyCalls (calls : List AgentCall) (a : BaseAgent)
    (h : summariesBounded a.state) : summariesBounded (a.applyCalls calls).state := by
  induction calls generalizing a with
  | nil => exact h
  | cons c rest ih =>
      exact ih (a.applyCall c) (summariesBounded_applyCall a c h)

/-- Folding a run trace adds, to each member's invocation total, the number
of its events. -/
theorem member_foldl_total (events : List (SwarmMember × Bool)) (s : SwarmAgents)
    (k : SwarmMember) :
    ((events.foldl recordEvent s).member k).total_invocations
      = (s.member k).total_invocations + (events.map Prod.fst).count k := by
  induction events generalizing s with
  | nil => simp
  | cons ev rest ih =>
      rw [List.foldl_cons, ih]
      obtain ⟨m, b⟩ := ev
      cases m <;> cases k <;>
        simp [recordEvent, SwarmAgents.member, AgentState.record_action,
          List.count_cons] <;>
        omega

/-- After a run trace, a member's invocation total is its number of events. -/
theorem member_runTrace_total (events : List (SwarmMember × Bool)) (k : SwarmMember) :
    ((runTrace events).member k).total_invocations = (events.map Prod.fst).count k := by
  have h := member_foldl_total events initSwarmAgents k
  cases k <;> simpa [runTrace, initSwarmAgents, SwarmAgents.member, AgentState.fresh] using h

/-- A member's name is listed by `_get_agents_used` exactly when that member
has at least one recorded invocation. -/
theorem memberName_mem_getAgentsUsed (s : SwarmAgents) (m : SwarmMember) :
    memberName m ∈ getAgentsUsed s ↔ 0 < (s.member m).total_invocations := by
  cases m <;>
    by_cases h1 : s.datadog.total_invocations > 0 <;>
    by_cases h2 : s.coding.total_invocations > 0 <;>
    by_cases h3 : s.servicenow.total_invocations > 0 <;>
    simp [getAgentsUsed, SwarmAgents.member, memberName, h1, h2, h3]

/-- `_get_agents_used` lists each name at most once and in the fixed roster
order DataDog, Coding, ServiceNow. -/
theorem getAgentsUsed_nodup_sublist (s : SwarmAgents) :
    (getAgentsUsed s).Nodup
      ∧ (getAgentsUsed s).Sublist ["DataDog Agent", "Coding Agent", "ServiceNow Agent"] := by
  by_cases h1 : s.datadog.total_invocations > 0 <;>
    by_cases h2 : s.coding.total_invocations > 0 <;>
    by_cases h3 : s.servicenow.total_invocations > 0 <;>
    refine ⟨?_, ?_⟩ <;>
    simp [getAgentsUsed, h1, h2, h3]

/-- One stage-4 step appends exactly its item's `tickets_created`
contribution. -/
theorem stage4Step_created (ex : String → List String) (nn : String → String)
    (acc : Stage4Result) (item : String × String) :
    (stage4Step ex nn acc item).tickets_created
      = acc.tickets_created ++ stage4Entries ex nn item := by
  unfold stage4Step stage4Entries
  by_cases h1 : item.2 ∈ ["critical", "high", "medium"]
  · by_cases h2 : ex item.1 = [] <;> simp [h1, h2]
  · simp [h1]

/-- One stage-4 step appends exactly its item's create-call contribution. -/
theorem stage4Step_calls (ex : String → List String) (nn : String → String)
    (acc : Stage4Result) (item : String × String) :
    (stage4Step ex nn acc item).create_calls
      = acc.create_calls ++ stage4Calls ex item := by
  unfold stage4Step stage4Calls
  by_cases h1 : item.2 ∈ ["critical", "high", "medium"]
  · by_cases h2 : ex item.1 = [] <;> simp [h1, h2]
  · simp [h1]

/-- The stage-4 fold's `tickets_created` is the concatenation of the
per-item contributions. -/
theorem stage4_foldl_created (ex : String → List String) (nn : String → String)
    (items : List (String × String)) (acc : Stage4Result) :
    (items.foldl (stage4Step ex nn) acc).tickets_created
      = acc.tickets_created ++ (items.map (stage4Entries ex nn)).flatten := by
  induction items generalizing acc with
  | nil => simp
  | cons item rest ih =>
      rw [List.foldl_cons, ih, stage4Step_created]
      simp

/-- The stage-4 fold's `create_calls` is the concatenation of the per-item
contributions. -/
theorem stage4_foldl_calls (ex : String → List String) (nn : String → String)
    (items : List (String × String)) (acc : Stage4Result) :
    (items.foldl (stage4Step ex nn) acc).create_calls
      = acc.create_calls ++ (items.map (stage4Calls ex)).flatten := by
  induction items generalizing acc with
  | nil => simp
  | cons item rest ih =>
      rw [List.foldl_cons, ih, stage4Step_calls]
      simp

/-- In a pair list whose first components are `Nodup`, two members with the
same first component are the same pair. -/
theorem nodup_keys_eq (l : List (String × String))
    (hnd : (l.map Prod.fst).Nodup) (a b : String × String)
    (ha : a ∈ l) (hb : b ∈ l) (hfst : a.1 = b.1) : a = b := by
  induction l with
  | nil => cases ha
  | cons hd tl ih =>
      rw [List.map_cons, List.nodup_cons] at hnd
      rcases List.mem_cons.mp ha with rfl | ha' <;>
        rcases List.mem_cons.mp hb with rfl | hb'
      · rfl
      · exact absurd (hfst ▸ List.mem_map_of_mem Prod.fst hb') hnd.1
      · exact absurd (hfst ▸ List.mem_map_of_mem Prod.fst ha') hnd.1
      · exact ih hnd.2 ha' hb'

/-! ## Claim theorems -/

/-- C1 (counterexample): in a run where the Coding agent acts before the
DataDog agent, `_get_agents_used` does not list the names in
first-action order — it returns the fixed roster order instead. -/
theorem agents_used_order_counterexample :
    getAgentsUsed (runTrace ceEvents) ≠ firstActionOrder ceEvents
      ∧ getAgentsUsed (runTrace ceEvents) = ["DataDog Agent", "Coding Agent"]
      ∧ firstActionOrder ceEvents = ["Coding Agent", "DataDog Agent"] := by
  decide

/-- C1 (amended): for every swarm run, `agents_used` contains each
capability name at most once, the names appear in the fixed roster order
DataDog, Coding, ServiceNow (not in order of first action), and a name is
listed exactly when that capability performed at least one action. -/
theorem agents_used_dedup_roster_order (events : List (SwarmMember × Bool)) :
    (getAgentsUsed (runTrace events)).Nodup
      ∧ (getAgentsUsed (runTrace events)).Sublist
          ["DataDog Agent", "Coding Agent", "ServiceNow Agent"]
      ∧ ∀ m : SwarmMember,
          memberName m ∈ getAgentsUsed (runTrace events) ↔ m ∈ events.map Prod.fst := by
  refine ⟨(getAgentsUsed_nodup_sublist _).1, (getAgentsUsed_nodup_sublist _).2, ?_⟩
  intro m
  rw [memberName_mem_getAgentsUsed, member_runTrace_total]
  exact List.count_pos_iff

/-- C2: for every task and any outcome of the inner swarm execution,
`AIOpsSwarm.run` returns a `SwarmResult` (the `try/except Exception`
wrapper lets no exception escape); when the inner execution raises,
the result has `success = false`, empty `output`, and `error` equal to the
stringified exception. -/
theorem run_failure_yields_result (task e output : String) (agents : SwarmAgents) :
    (AIOpsSwarm.run task (Except.error e) agents).success = false
      ∧ (AIOpsSwarm.run task (Except.error e) agents).output = ""
      ∧ (AIOpsSwarm.run task (Except.error e) agents).error = e
      ∧ (AIOpsSwarm.run task (Except.error e) agents).task = task
      ∧ (AIOpsSwarm.run task (Except.ok output) agents).success = true
      ∧ (AIOpsSwarm.run task (Except.ok output) agents).output = output :=
  ⟨rfl, rfl, rfl, rfl, rfl, rfl⟩

/-- C5 (counterexample): a failed run in which the DataDog agent had acted
once: the result's `summary` is the bare error string `"Task failed: boom"`,
not the ledger-derived mini-report that `_generate_summary` would build. -/
theorem failed_summary_counterexample :
    (AIOpsSwarm.run "t" (Except.error "boom") ceAgents).summary ≠ generateSummary ceAgents
      ∧ (AIOpsSwarm.run "t" (Except.error "boom") ceAgents).summary = "Task failed: boom" := by
  decide

/-- C5 (amended): for every swarm run that ends in failure, the returned
result's `agents_used` still lists exactly the capabilities that had acted
before the terminal event, but `summary` is the error string
`"Task failed: <e>"`, not the concatenation of the acted capabilities'
ledger-derived mini-reports. -/
theorem failed_run_reports_acted_agents (task e : String)
    (events : List (SwarmMember × Bool)) :
    (∀ m : SwarmMember,
        memberName m ∈ (AIOpsSwarm.run task (Except.error e) (runTrace events)).agents_used
          ↔ m ∈ events.map Prod.fst)
      ∧ (AIOpsSwarm.run task (Except.error e) (runTrace events)).summary
        = "Task failed: " ++ e := by
  refine ⟨fun m => ?_, rfl⟩
  show memberName m ∈ getAgentsUsed (runTrace events) ↔ _
  rw [memberName_mem_getAgentsUsed, member_runTrace_total]
  exact List.count_pos_iff

/-- C8 (counterexample): the `to_dict` projection of a successful run's
result still contains the `error` key, so the key is not present only when
`success` is false. -/
theorem error_key_on_success_counterexample :
    (AIOpsSwarm.run "t" (Except.ok "done") initSwarmAgents).success = true
      ∧ "error" ∈ ((AIOpsSwarm.run "t" (Except.ok "done") initSwarmAgents).to_dict.map
          Prod.fst) := by
  decide

/-- C8 (amended): the `error` key is always present in the dictionary
projection, bound to the result's `error` string; a result built by the
success path of `run` carries the empty string there (no error detail). -/
theorem error_key_always_present (r : SwarmResult) (task output : String)
    (agents : SwarmAgents) :
    ("error", DictVal.str r.error) ∈ r.to_dict
      ∧ (AIOpsSwarm.run task (Except.ok output) agents).error = "" :=
  ⟨by simp [SwarmResult.to_dict], rfl⟩

/-- C3: for every capability and every sequence of `invoke` and
`record_action` calls, the ledger length equals
`successful_invocations + failed_invocations` equals `total_invocations`;
after `reset_state` all three counters are zero and the ledger is empty,
with the bound tools and directive (system prompt) unaffected. -/
theorem ledger_counters_partition (i n d p : String) (tools : List String)
    (calls : List AgentCall) :
    (agentAfter i n d p tools calls).state.action_history.length
        = (agentAfter i n d p tools calls).state.successful_invocations
          + (agentAfter i n d p tools calls).state.failed_invocations
      ∧ (agentAfter i n d p tools calls).state.successful_invocations
          + (agentAfter i n d p tools calls).state.failed_invocations
        = (agentAfter i n d p tools calls).state.total_invocations
      ∧ (agentAfter i n d p tools calls).reset_state.state.total_invocations = 0
      ∧ (agentAfter i n d p tools calls).reset_state.state.successful_invocations = 0
      ∧ (agentAfter i n d p tools calls).reset_state.state.failed_invocations = 0
      ∧ (agentAfter i n d p tools calls).reset_state.state.action_history = []
      ∧ (agentAfter i n d p tools calls).reset_state.tools
        = (agentAfter i n d p tools calls).tools
      ∧ (agentAfter i n d p tools calls).reset_state.system_prompt
        = (agentAfter i n d p tools calls).system_prompt := by
  have hinv : ledgerPartition (agentAfter i n d p tools calls).state :=
    ledgerPartition_applyCalls calls (mkBaseAgent i n d p tools) ⟨rfl, rfl⟩
  exact ⟨hinv.1, hinv.2, rfl, rfl, rfl, rfl, rfl, rfl⟩

/-- C4: `invoke` re-raises exactly when the underlying agent call raises
(the returned outcome is the underlying outcome), and in either case
appends exactly one `Action`: on success with `success = true`, truncated
input/output summaries and the measured duration; on failure with
`success = false`, empty output summary and error text equal to the
stringified exception. -/
theorem invoke_raises_iff_underlying (st : AgentState) (message : String)
    (outcome : Except String String) (duration_ms : Nat) :
    (st.invoke message outcome duration_ms).2 = outcome
      ∧ (st.invoke message outcome duration_ms).1.action_history =
          st.action_history ++
            [match outcome with
              | Except.ok response =>
                  { action_type := "invoke", description := "Processed user request",
                    input_summary := pySlice message 500,
                    output_summary := pySlice response 500,
                    success := true, error_message := "", duration_ms := duration_ms }
              | Except.error e =>
                  { action_type := "invoke", description := "Failed to process request",
                    input_summary := pySlice message 500, output_summary := "",
                    success := false, error_message := e, duration_ms := duration_ms }]
      ∧ (st.invoke message outcome duration_ms).1.total_invocations
        = st.total_invocations + 1 := by
  cases outcome with
  | ok r =>
      refine ⟨rfl, ?_, rfl⟩
      have h := record_action_history st "invoke" "Processed user request" message r true "" duration_ms
      simpa using h
  | error e =>
      refine ⟨rfl, ?_, rfl⟩
      have h := record_action_history st "invoke" "Failed to process request" message "" false e duration_ms
      simpa using h

/-- C9: `record_action` stores the first 500 characters of each given
summary (the empty string when none is given, since slicing the empty
string is the empty string); both stored summaries are at most 500
characters, and this bound holds for every action in any ledger built from
a fresh agent by `record_action`/`invoke` calls. -/
theorem summaries_truncated_500 (st : AgentState)
    (aty de isum osum : String) (succ : Bool) (emsg : String) (dms : Nat)
    (i n d p : String) (tools : List String) (calls : List AgentCall) :
    (st.record_action aty de isum osum succ emsg dms).action_history =
        st.action_history ++
          [{ action_type := aty, description := de,
             input_summary := pySlice isum 500, output_summary := pySlice osum 500,
             success := succ, error_message := emsg, duration_ms := dms }]
      ∧ (pySlice isum 500).length ≤ 500
      ∧ (pySlice osum 500).length ≤ 500
      ∧ ((agentAfter i n d p tools calls).state.action_history.all fun act =>
          decide (act.input_summary.length ≤ 500)
            && decide (act.output_summary.length ≤ 500)) = true := by
  refine ⟨record_action_history st aty de isum osum succ emsg dms,
    length_pySlice_le _ _, length_pySlice_le _ _, ?_⟩
  have hb : summariesBounded (agentAfter i n d p tools calls).state :=
    summariesBounded_applyCalls calls (mkBaseAgent i n d p tools) (by
      intro act hact
      simp [mkBaseAgent, AgentState.fresh] at hact)
  rw [List.all_eq_true]
  intro act hact
  have := hb act hact
  simp [this.1, this.2]

/-- C6 (counterexample): one analyzed high-severity service whose
decision-mode search finds an active ticket: stage 4 makes no create call,
but the duplicate match is appended to `workflow_result["tickets_created"]`
itself (there is no separate skipped/duplicate bucket), merely tagged with
a note. -/
theorem duplicate_in_tickets_created_counterexample :
    "svc-a" ∈ ceStage4.tickets_created.map TicketEntry.service
      ∧ ceStage4.create_calls = []
      ∧ ceStage4.tickets_created =
          [{ service := "svc-a", ticket_number := TicketNumbers.many ["INC0001"],
             priority := "high",
             note := some "Duplicate ticket exists — not creating a new one" }] := by
  decide

/-- C6 (amended): for every analyzed service at or above the minimum
severity whose decision-mode search returns at least one match, stage 4
calls `create_ticket_from_analysis` for no such service, and records the
match as an entry of the same `tickets_created` list carrying the
duplicate note and the matched ticket numbers (not in a separate
"skipped" bucket). -/
theorem duplicate_prevents_create (ex : String → List String)
    (nn : String → String) (items : List (String × String))
    (service severity : String)
    (hnd : (items.map Prod.fst).Nodup)
    (hmem : (service, severity) ∈ items)
    (hsev : severity ∈ ["critical", "high", "medium"])
    (hex : ex service ≠ []) :
    service ∉ (stage4 ex nn items).create_calls
      ∧ { service := service, ticket_number := TicketNumbers.many (ex service),
          priority := severity,
          note := some "Duplicate ticket exists — not creating a new one" } ∈
        (stage4 ex nn items).tickets_created := by
  constructor
  · intro hin
    rw [stage4, stage4_foldl_calls] at hin
    simp only [List.nil_append, List.mem_flatten, List.mem_map] at hin
    obtain ⟨l, ⟨item', hitem', rfl⟩, hserv⟩ := hin
    have hfst : item'.1 = service := by
      unfold stage4Calls at hserv
      by_cases h1 : item'.2 ∈ ["critical", "high", "medium"]
      · by_cases h2 : ex item'.1 = [] <;> simp [h1, h2] at hserv
        exact hserv.symm
      · simp [h1] at hserv
    have : item' = (service, severity) :=
      nodup_keys_eq items hnd item' (service, severity) hitem' hmem hfst
    subst this
    unfold stage4Calls at hserv
    simp [hsev, hex] at hserv
  · rw [stage4, stage4_foldl_created]
    simp only [List.nil_append, List.mem_flatten, List.mem_map]
    refine ⟨stage4Entries ex nn (service, severity), ⟨(service, severity), hmem, rfl⟩, ?_⟩
    unfold stage4Entries
    simp [hsev, hex]

/-- C6 (witness): the amended theorem applied to the concrete one-service
stage-4 run. -/
theorem duplicate_prevents_create_witness :
    "svc-a" ∉ (stage4 ceExisting (fun _ => "INC0999") [("svc-a", "high")]).create_calls
      ∧ { service := "svc-a", ticket_number := TicketNumbers.many ["INC0001"],
          priority := "high",
          note := some "Duplicate ticket exists — not creating a new one" } ∈
        (stage4 ceExisting (fun _ => "INC0999") [("svc-a", "high")]).tickets_created := by
  have h := duplicate_prevents_create ceExisting (fun _ => "INC0999")
    [("svc-a", "high")] "svc-a" "high" (by decide) (by decide) (by decide) (by decide)
  simpa [ceExisting] using h

/-- C7: if the fetch stage returns zero log records, `execute()` returns a
report with `success = true`, a created-tickets count of `0` and the
"no data" summary, and neither the analysis capability nor the ticketing
client is invoked at all. -/
theorem empty_logs_short_circuit (cfg : CronConfig) (ets : String)
    (severityOf : String → String)
    (createTicket : String → Except String (String × String)) :
    (DailyAnalysisWorkflow.execute cfg ets [] severityOf createTicket).report.success = true
      ∧ (DailyAnalysisWorkflow.execute cfg ets [] severityOf createTicket).report.tickets_created
        = 0
      ∧ (DailyAnalysisWorkflow.execute cfg ets [] severityOf createTicket).report.summary
        = "No logs found in the specified time range"
      ∧ (DailyAnalysisWorkflow.execute cfg ets [] severityOf createTicket).coding_invocations
        = 0
      ∧ (DailyAnalysisWorkflow.execute cfg ets [] severityOf createTicket).snow_create_invocations
        = 0 := by
  refine ⟨?_, ?_, ?_, ?_, ?_⟩ <;> rfl

/-- C10: `search_incidents` never propagates an exception: when the
ServiceNow client raises, it records exactly one failed action (with the
stringified exception as error message) and returns the empty list; when
the client succeeds, it records exactly one successful action and returns
the standardized ticket records. -/
theorem search_incidents_never_raises (st : AgentState) (query : String)
    (service_name state : Option String) (limit : Nat) (mode : String)
    (client : String → Nat → Except String (List RawIncident)) :
    match client (buildSearchQuery query service_name state mode) limit with
    | Except.ok results_raw =>
        (ServiceNowAgent.search_incidents st query service_name state limit mode client).2
            = results_raw.map standardizeIncident
          ∧ (ServiceNowAgent.search_incidents st query service_name state limit mode
              client).1.action_history
            = st.action_history ++
                [{ action_type := "search_tickets",
                   description := "Performed ServiceNow search (" ++ mode ++ ")",
                   input_summary := pySlice (searchInputSummary query service_name state limit) 500,
                   output_summary :=
                     pySlice ("Found " ++ toString (results_raw.map standardizeIncident).length
                       ++ " matching tickets") 500,
                   success := true, error_message := "", duration_ms := 0 }]
    | Except.error e =>
        (ServiceNowAgent.search_incidents st query service_name state limit mode client).2 = []
          ∧ (ServiceNowAgent.search_incidents st query service_name state limit mode
              client).1.action_history
            = st.action_history ++
                [{ action_type := "search_tickets",
                   description := "ServiceNow search failed",
                   input_summary := pySlice (searchInputSummary query service_name state limit) 500,
                   output_summary := pySlice e 500,
                   success := false, error_message := e, duration_ms := 0 }] := by
  cases hc : client (buildSearchQuery query service_name state mode) limit with
  | ok results_raw =>
      refine ⟨?_, ?_⟩ <;>
        simp [ServiceNowAgent.search_incidents, hc, record_action_history]
  | error e =>
      refine ⟨?_, ?_⟩ <;>
        simp [ServiceNowAgent.search_incidents, hc, record_action_history]

end AwsAiops
